import Mathlib

/-!
Verification of the financial-document-analyzer pipeline
(src/services/analysis_service.py, src/workers/tasks.py, src/main.py,
src/services/database_service.py) against its natural-language spec.

The Python code is shallowly embedded: dictionaries and JSON values become
`PyVal`, the Gemini model and the `json.loads` / pypdf library calls become
explicit oracle parameters (each model round-trip is one `Option String`:
`none` models a raised exception), database rows become the `JobRecord`
structure, and each endpoint / task body becomes a pure function threading
an explicit `ApiState`.
-/

namespace FinDoc

/-- Python/JSON values as returned by `json.loads` and stored in the
`result` JSON column. -/
inductive PyVal where
  | null : PyVal
  | bool : Bool → PyVal
  | num : ℚ → PyVal
  | str : String → PyVal
  | list : List PyVal → PyVal
  | dict : List (String × PyVal) → PyVal

/-- Python truthiness of a value (`if result:` style tests). -/
def pyTruthy : PyVal → Bool
  | .null => false
  | .bool b => b
  | .num q => q ≠ 0
  | .str s => s ≠ ""
  | .list xs => !xs.isEmpty
  | .dict kvs => !kvs.isEmpty

mutual

/-- Rendering of a value inside an f-string, modelling Python `str()`.
The exact rendering of numbers and nested containers is abstracted (no
claim inspects it); strings render as themselves, as in Python. -/
def pyStr : PyVal → String
  | .null => "None"
  | .bool true => "True"
  | .bool false => "False"
  | .num q => toString q
  | .str s => s
  | .list xs => "[" ++ pyStrList xs ++ "]"
  | .dict kvs => "\x7b" ++ pyStrDict kvs ++ "\x7d"

/-- Rendering of the elements of a Python list. -/
def pyStrList : List PyVal → String
  | [] => ""
  | [v] => pyStr v
  | v :: vs => pyStr v ++ ", " ++ pyStrList vs

/-- Rendering of the entries of a Python dict. -/
def pyStrDict : List (String × PyVal) → String
  | [] => ""
  | [(k, v)] => k ++ ": " ++ pyStr v
  | (k, v) :: kvs => k ++ ": " ++ pyStr v ++ ", " ++ pyStrDict kvs

end

/-- Python `d.get(key, default)` on a value; on a non-dict value the
attribute access raises (`Except.error`), as in Python. -/
def pyDictGet (v : PyVal) (k : String) (dflt : PyVal) : Except String PyVal :=
  match v with
  | .dict kvs => .ok ((kvs.lookup k).getD dflt)
  | _ => .error ("AttributeError: object has no attribute get")

/-- Boolean test that `p` is an initial segment of `l`. -/
def leadsWith : List Char → List Char → Bool
  | [], _ => true
  | _ :: _, [] => false
  | p :: ps, c :: cs => p = c && leadsWith ps cs

/-- Fuel-driven core of `replaceAll` (fuel is the length of the list, so
it never runs out; structural recursion keeps it kernel-computable). -/
def replaceAllFuel (pat rep : List Char) : Nat → List Char → List Char
  | _, [] => []
  | 0, l => l
  | Nat.succ n, c :: rest =>
    if pat ≠ [] ∧ leadsWith pat (c :: rest) then
      rep ++ replaceAllFuel pat rep n (rest.drop (pat.length - 1))
    else
      c :: replaceAllFuel pat rep n rest

/-- Python `s.replace(pat, rep)`: replaces every non-overlapping
occurrence, scanning left to right. -/
def replaceAll (pat rep l : List Char) : List Char := replaceAllFuel pat rep l.length l

/-- String wrapper for `replaceAll`, modelling Python `str.replace`. -/
def pyReplace (s pat rep : String) : String := String.mk (replaceAll pat.data rep.data s.data)

/-- Core of `pyTitle`: the flag records whether the previous character was
alphabetic. -/
def pyTitleGo : Bool → List Char → List Char
  | _, [] => []
  | prevAlpha, c :: cs =>
    (if c.isAlpha then (if prevAlpha then c.toLower else c.toUpper) else c) :: pyTitleGo c.isAlpha cs

/-- Python `str.title()` for ASCII text: each alphabetic character that
follows a non-alphabetic one is uppercased, every other alphabetic
character is lowercased. -/
def pyTitle (s : String) : String := String.mk (pyTitleGo false s.data)

/-- Python `str.strip()`: drops whitespace from both ends. -/
def pyStrip (s : String) : String :=
  String.mk (((s.data.dropWhile Char.isWhitespace).reverse.dropWhile Char.isWhitespace).reverse)

/-- Python `str.lower()` for ASCII text. -/
def pyLower (s : String) : String := String.mk (s.data.map Char.toLower)

/-- Python `s.endswith(suf)`. -/
def pyEndsWith (s suf : String) : Bool := leadsWith suf.data.reverse s.data.reverse

/-- Python `s.split(chr(10))` (split on newline characters). -/
def splitLines : List Char → List (List Char)
  | [] => [[]]
  | c :: rest =>
    if c = '\n' then [] :: splitLines rest
    else
      match splitLines rest with
      | g :: gs => (c :: g) :: gs
      | [] => [[c]]

/-- The upload validation of both endpoints: Python
`file.filename and file.filename.lower().endswith(".pdf")` (the endpoints
reject when this is false). -/
def pdfOk : Option String → Bool
  | none => false
  | some f => if f = "" then false else pyEndsWith (pyLower f) (".pdf")

/-- Characters allowed inside the brace pair of the regex `[^{}]*`. -/
def braceFree (d : Char) : Bool := d ≠ '{' && d ≠ '}'

/-- Model of Python `re.search` for the metrics pattern (an opening brace,
then characters that are not braces, then a closing brace): start
positions are tried left to right; at an opening brace the greedy inner
run with backtracking succeeds exactly when the first brace character
after it is a closing brace. Returns the matched substring. -/
def searchNonNested : List Char → Option (List Char)
  | [] => none
  | d :: rest =>
    if d = '{' then
      match rest.dropWhile braceFree with
      | '}' :: _ => some ('{' :: rest.takeWhile braceFree ++ ['}'])
      | _ => searchNonNested rest
    else searchNonNested rest

/-- Prefix of `l` up to and including the last occurrence of `c`
(empty when `c` does not occur). -/
def takeToLast (c : Char) : List Char → List Char
  | [] => []
  | d :: rest =>
    if c ∈ rest then d :: takeToLast c rest
    else if d = c then [c] else []

/-- Model of Python `re.search` with `re.DOTALL` for the greedy span
patterns (opener, any characters, closer): start positions are tried left
to right; at an opener the greedy dot-star with backtracking succeeds
exactly when some closer follows, and consumes up to the last closer.
Returns the matched substring. -/
def searchSpan (op cl : Char) : List Char → Option (List Char)
  | [] => none
  | d :: rest =>
    if d = op ∧ cl ∈ rest then some (op :: takeToLast cl rest)
    else searchSpan op cl rest

/-- Follows the spec words for comparison (claim C5): scan for the
matching closer of an opened bracket, tracking nesting depth; returns the
consumed characters through the matching closer. -/
def findClose (op cl : Char) : List Char → Nat → Option (List Char)
  | [], _ => none
  | d :: rest, depth =>
    if d = cl then
      if depth ≤ 1 then some [cl]
      else (findClose op cl rest (depth - 1)).map (d :: ·)
    else if d = op then
      (findClose op cl rest (depth + 1)).map (d :: ·)
    else
      (findClose op cl rest depth).map (d :: ·)

/-- Follows the spec words for comparison (claim C5): the first balanced
brace-delimited or bracket-delimited substring of the text. -/
def firstBalanced : List Char → Option (List Char)
  | [] => none
  | d :: rest =>
    if d = '{' then
      match findClose '{' '}' rest 1 with
      | some body => some ('{' :: body)
      | none => firstBalanced rest
    else if d = '[' then
      match findClose '[' ']' rest 1 with
      | some body => some ('[' :: body)
      | none => firstBalanced rest
    else firstBalanced rest

/-- Outcomes of the six Gemini round-trips made by one
`FinancialAnalysisService.analyze_document` run. Each field is the text of
that stage `generate_content` response; `none` models the call raising.
Prompt construction (string templates embedding transcript slices and
`json.dumps` of earlier results, none of which can raise) is folded into
the oracle, since the model is an opaque external collaborator. -/
structure ModelOracle where
  companyResp : Option String
  metricsResp : Option String
  recsResp : Option String
  risksResp : Option String
  insightsResp : Option String
  queryResp : Option String

/-- The filename fallback of `_extract_company_name`:
`filename.replace(".pdf", "").replace("_", " ").title()`. -/
def companyFallback (filename : String) : String :=
  pyTitle (pyReplace (pyReplace filename (".pdf") ("")) ("_") (" "))

/-- FinancialAnalysisService._extract_company_name: strip the model reply,
accept it when non-empty and shorter than 100 characters, otherwise (also
when the call raised) fall back to the filename-derived name. -/
def extractCompanyName (resp : Option String) (filename : String) : String :=
  match resp with
  | some t =>
    let name := pyStrip t
    if name.length < 100 ∧ name ≠ "" then name else companyFallback filename
  | none => companyFallback filename

/-- FinancialAnalysisService._extract_financial_metrics: search the reply
for the brace pattern, `json.loads` the match, and on any failure
(raised call, no match, decode error) return the empty dict. -/
def extractFinancialMetrics (jsonLoads : String → Option PyVal) (resp : Option String) : PyVal :=
  match resp with
  | none => .dict []
  | some t =>
    match searchNonNested t.data with
    | none => .dict []
    | some m =>
      match jsonLoads (String.mk m) with
      | none => .dict []
      | some v => v

/-- The fallback recommendation list of
`_generate_investment_recommendations`. -/
def recsFallback : PyVal :=
  .list [.dict [("action", .str ("monitor")),
                ("asset", .str ("Company stock")),
                ("rationale", .str ("Requires further analysis based on available metrics")),
                ("risk_level", .str ("Medium")),
                ("confidence", .num (1 / 2))]]

/-- FinancialAnalysisService._generate_investment_recommendations: search
the reply for the greedy bracket span, decode it, and on any failure
return the single monitor recommendation. -/
def generateInvestmentRecommendations (jsonLoads : String → Option PyVal)
    (resp : Option String) : PyVal :=
  match resp with
  | none => recsFallback
  | some t =>
    match searchSpan '[' ']' t.data with
    | none => recsFallback
    | some m =>
      match jsonLoads (String.mk m) with
      | none => recsFallback
      | some v => v

/-- The fallback risk list of `_assess_risks`. -/
def risksFallback : PyVal :=
  .list [.dict [("category", .str ("Market Risk")),
                ("level", .str ("Medium")),
                ("description", .str ("General market volatility affects all investments")),
                ("mitigation", .str ("Diversify portfolio and maintain long-term perspective"))]]

/-- FinancialAnalysisService._assess_risks: same parsing protocol as the
recommendations, with the generic market-risk fallback. -/
def assessRisks (jsonLoads : String → Option PyVal) (resp : Option String) : PyVal :=
  match resp with
  | none => risksFallback
  | some t =>
    match searchSpan '[' ']' t.data with
    | none => risksFallback
    | some m =>
      match jsonLoads (String.mk m) with
      | none => risksFallback
      | some v => v

/-- The fallback insight list of `_get_market_insights`. -/
def insightsFallback : PyVal := .list [.str ("Market analysis requires additional data")]

/-- FinancialAnalysisService._get_market_insights: decode a bracket span
when one is found (a decode error is caught and yields the fallback, as is
a raised call); with no span, split the reply into stripped non-empty
lines and keep the first five. -/
def getMarketInsights (jsonLoads : String → Option PyVal) (resp : Option String) : PyVal :=
  match resp with
  | none => insightsFallback
  | some t =>
    match searchSpan '[' ']' t.data with
    | some m =>
      match jsonLoads (String.mk m) with
      | none => insightsFallback
      | some v => v
    | none =>
      .list ((((splitLines t.data).map (fun l => pyStrip (String.mk l))).filter
        (fun l => l ≠ "")).take 5 |>.map PyVal.str)

/-- The f-string template of `_generate_summary`. -/
def summaryTemplate (rev ni company query : String) : String :=
  "\n        Financial Analysis Summary for " ++ company ++ ":\n        \n        " ++
  "Key Performance: Revenue of $" ++ rev ++ "M and net income of $" ++ ni ++
  "M demonstrate the company\x27s current financial position.\n        \n        " ++
  "Analysis Focus: This evaluation addresses your query: \"" ++ query ++
  "\" by examining core financial metrics and operational performance.\n        \n        " ++
  "Investment Perspective: Based on available data, the company shows measurable " ++
  "financial indicators that inform strategic investment decisions.\n        "

/-- FinancialAnalysisService._generate_summary: a deterministic template
fill from `metrics.get` lookups (no model call). The `.get` attribute
access raises when `metrics` is not a dict, and no handler catches that
here, so the error propagates. -/
def generateSummary (metrics : PyVal) (company query : String) : Except String String :=
  match pyDictGet metrics ("revenue") (.str ("N/A")) with
  | .error e => .error e
  | .ok revenue =>
    match pyDictGet metrics ("net_income") (.str ("N/A")) with
    | .error e => .error e
    | .ok netIncome => .ok (summaryTemplate (pyStr revenue) (pyStr netIncome) company query)

/-- FinancialAnalysisService._answer_specific_query: return the stripped
reply, or the deterministic apology on a raised call. -/
def answerSpecificQuery (resp : Option String) (query : String) : String :=
  match resp with
  | some t => pyStrip t
  | none => "Unable to provide specific analysis for query: " ++ query

/-- FinancialAnalysisService.analyze_document: extract the transcript
(`pdfExtract` models pypdf, which may raise on a corrupt document), run
the six stages in order, and return the seven-field result dict. The
top-level handler logs and re-raises, so any escaping stage error is an
`Except.error` here. -/
def analyzeDocument (pdfExtract : List Nat → Except String String) (oracle : ModelOracle)
    (jsonLoads : String → Option PyVal) (content : List Nat) (filename query : String) :
    Except String (List (String × PyVal)) :=
  match pdfExtract content with
  | .error e => .error e
  | .ok _text =>
    let company := extractCompanyName oracle.companyResp filename
    let metrics := extractFinancialMetrics jsonLoads oracle.metricsResp
    let recs := generateInvestmentRecommendations jsonLoads oracle.recsResp
    let risks := assessRisks jsonLoads oracle.risksResp
    let insights := getMarketInsights jsonLoads oracle.insightsResp
    match generateSummary metrics company query with
    | .error e => .error e
    | .ok summary =>
      .ok [("company_name", .str company),
           ("financial_metrics", metrics),
           ("investment_recommendations", recs),
           ("risk_assessments", risks),
           ("market_insights", insights),
           ("summary", .str summary),
           ("query_response", .str (answerSpecificQuery oracle.queryResp query))]

/-- One row of the `analysis_results` table (models.database.AnalysisResult).
Timestamps and durations are abstracted to `Nat` ticks supplied by the
caller where the code reads the clock; the `status` column is the raw
string the code writes. -/
structure JobRecord where
  task_id : String
  filename : String
  query : String
  status : String
  result : Option (List (String × PyVal)) := none
  error_message : Option String := none
  completed_at : Option Nat := none
  processing_time : Option Nat := none
  company_name : Option PyVal := none

/-- The record created by the queued `/analyze` endpoint
(`AnalysisResult(task_id=..., filename=..., query=query.strip(), status="queued")`). -/
def newQueuedRecord (tid fn q : String) : JobRecord :=
  { task_id := tid, filename := fn, query := q, status := "queued" }

/-- The record created by the `/analyze-fast` endpoint, which starts
directly at `status="processing"`. -/
def newProcessingRecord (tid fn q : String) : JobRecord :=
  { task_id := tid, filename := fn, query := q, status := "processing" }

/-- The success write of the Celery worker
(workers/tasks.py lines 55-64): result, status `completed`, completion
time, duration, and the denormalized company name via `result.get`. -/
def workerSuccessWrite (payload : List (String × PyVal)) (now pt : Nat) (r : JobRecord) :
    JobRecord :=
  { r with result := some payload, status := "completed", completed_at := some now,
           processing_time := some pt, company_name := payload.lookup ("company_name") }

/-- The failure write of the Celery worker (workers/tasks.py lines 85-92):
status `failed`, the error message, and the completion time. -/
def workerFailWrite (msg : String) (now : Nat) (r : JobRecord) : JobRecord :=
  { r with status := "failed", error_message := some msg, completed_at := some now }

/-- The success write of `/analyze-fast` (main.py lines 160-166); it
mirrors the worker success write field for field. -/
def fastSuccessWrite (payload : List (String × PyVal)) (now pt : Nat) (r : JobRecord) :
    JobRecord :=
  { r with result := some payload, status := "completed", completed_at := some now,
           processing_time := some pt, company_name := payload.lookup ("company_name") }

/-- The failure write of `/analyze-fast` (main.py lines 176-180). -/
def fastFailWrite (msg : String) (now : Nat) (r : JobRecord) : JobRecord :=
  { r with status := "failed", error_message := some msg, completed_at := some now }

/-- DatabaseService.update_analysis_result (services/database_service.py
lines 37-64): overwrite result/status/times unconditionally, then set the
denormalized company name only when the result is a truthy dict holding a
truthy `company_name`. The error_message column is never touched. The
separate `_save_financial_metrics` insert touches a different table and is
omitted. This method has no caller in the repository. -/
def update_analysis_result (result : Option (List (String × PyVal))) (status : String)
    (pt : Option Nat) (now : Nat) (r : JobRecord) : JobRecord :=
  let r1 := { r with result := result, status := status, completed_at := some now,
                     processing_time := pt }
  match result with
  | some payload =>
    if payload.isEmpty then r1
    else
      match payload.lookup ("company_name") with
      | some cn => if pyTruthy cn then { r1 with company_name := some cn } else r1
      | none => r1
  | none => r1

/-- The result store plus document store plus broker queue threaded
through the endpoints: `docs` maps file paths to bytes, `jobs` maps task
ids to rows, `queue` holds the enqueued `(task_id, file_path, query,
filename)` work units. -/
structure ApiState where
  docs : List (String × List Nat)
  jobs : List (String × JobRecord)
  queue : List (String × String × String × String)

/-- Insertion into an association list (a fresh row or file). -/
def alistInsert (k : String) (v : α) (l : List (String × α)) : List (String × α) :=
  (k, v) :: l

/-- Update of every row with the given key (the ORM mutates the row found
by the task-id filter). -/
def alistUpdate (k : String) (f : α → α) (l : List (String × α)) : List (String × α) :=
  l.map (fun kv => if kv.1 = k then (k, f kv.2) else kv)

/-- Deletion of the rows with the given key. -/
def alistDelete (k : String) (l : List (String × α)) : List (String × α) :=
  l.filter (fun kv => kv.1 != k)

/-- An HTTP error response (an `HTTPException` that reaches the client). -/
structure HttpErr where
  status_code : Nat
  detail : String
deriving DecidableEq

/-- The JSON body returned by a successful `/analyze` submission. -/
structure SubmitResponse where
  status : String
  task_id : String
  message : String
  estimated_time : String
deriving DecidableEq

/-- The `/analyze` endpoint (main.py analyze_document, lines 75-125).
`enqueue` is the outcome of `analyze_financial_document_task.delay`:
`none` for success, `some e` when dispatch raises with message `e`. The
validation failure raises `HTTPException(400, ...)`, which the endpoint
catches in its own generic `except Exception` handler and re-raises as a
500 whose detail is the string form of the caught exception. -/
def analyzeEndpoint (enqueue : Option String) (task_id : String) (filename : Option String)
    (content : List Nat) (query : String) (st : ApiState) :
    Except HttpErr SubmitResponse × ApiState :=
  if pdfOk filename then
    let fn := filename.getD ("")
    let path := "data/doc_" ++ task_id ++ ".pdf"
    let docs1 := alistInsert path content st.docs
    let jobs1 := alistInsert task_id (newQueuedRecord task_id fn (pyStrip query)) st.jobs
    match enqueue with
    | some e =>
      (.error ⟨500, e⟩, { st with docs := docs1, jobs := jobs1 })
    | none =>
      (.ok ⟨"queued", task_id, "Analysis queued for processing", "2-5 minutes"⟩,
       { docs := docs1, jobs := jobs1,
         queue := st.queue ++ [(task_id, path, pyStrip query, fn)] })
  else
    (.error ⟨500, "400: Only PDF files are supported"⟩, st)

/-- The dict returned by a successful Celery task run. -/
structure WorkerReturn where
  task_id : String
  status : String
  result : List (String × PyVal)
  processing_time : Nat

/-- The Celery task body (workers/tasks.py analyze_financial_document_task).
Progress reporting through `self.update_state` is a Celery-side channel
that never touches the job row and is omitted. On any exception the task
marks the row failed when it exists, re-raises with the prefixed message,
and in both paths the `finally` block removes the uploaded file. -/
def workerTask (pdfExtract : List Nat → Except String String) (oracle : ModelOracle)
    (jsonLoads : String → Option PyVal) (task_id path query filename : String)
    (now pt : Nat) (st : ApiState) : Except String WorkerReturn × ApiState :=
  match st.docs.lookup path with
  | none =>
    let msg := "Analysis failed: File not found: " ++ path
    let jobs1 :=
      match st.jobs.lookup task_id with
      | some _ => alistUpdate task_id (workerFailWrite msg now) st.jobs
      | none => st.jobs
    (.error msg, { st with jobs := jobs1, docs := alistDelete path st.docs })
  | some content =>
    match analyzeDocument pdfExtract oracle jsonLoads content filename query with
    | .error e =>
      let msg := "Analysis failed: " ++ e
      let jobs1 :=
        match st.jobs.lookup task_id with
        | some _ => alistUpdate task_id (workerFailWrite msg now) st.jobs
        | none => st.jobs
      (.error msg, { st with jobs := jobs1, docs := alistDelete path st.docs })
    | .ok payload =>
      let jobs1 :=
        match st.jobs.lookup task_id with
        | some _ => alistUpdate task_id (workerSuccessWrite payload now pt) st.jobs
        | none => st.jobs
      (.ok ⟨task_id, "completed", payload, pt⟩,
       { st with jobs := jobs1, docs := alistDelete path st.docs })

/-- The JSON body returned by a successful `/analyze-fast` call. -/
structure FastResponse where
  status : String
  task_id : String
  result : List (String × PyVal)
  processing_time : Nat

/-- The `/analyze-fast` endpoint (main.py analyze_fast, lines 127-186).
The row is created already in `processing`, committed, and then updated in
place after the inline analysis. When validation fails, the generic
handler itself crashes referencing the not-yet-bound `db_analysis`
variable, so the client sees a plain 500 and no row is written. -/
def fastEndpoint (pdfExtract : List Nat → Except String String) (oracle : ModelOracle)
    (jsonLoads : String → Option PyVal) (task_id : String) (filename : Option String)
    (content : List Nat) (query : String) (now pt : Nat) (st : ApiState) :
    Except HttpErr FastResponse × ApiState :=
  if pdfOk filename then
    let fn := filename.getD ("")
    let jobs1 := alistInsert task_id (newProcessingRecord task_id fn (pyStrip query)) st.jobs
    match analyzeDocument pdfExtract oracle jsonLoads content fn (pyStrip query) with
    | .ok payload =>
      (.ok ⟨"completed", task_id, payload, pt⟩,
       { st with jobs := alistUpdate task_id (fastSuccessWrite payload now pt) jobs1 })
    | .error e =>
      (.error ⟨500, e⟩,
       { st with jobs := alistUpdate task_id (fastFailWrite e now) jobs1 })
  else
    (.error ⟨500, "UnboundLocalError: local variable \x27db_analysis\x27 referenced before assignment"⟩,
     st)

/-- The `GET /analysis/{task_id}` endpoint (main.py get_analysis_status).
Its `except HTTPException: raise` clause lets the 404 surface unchanged;
the Celery progress augmentation is a read-only side channel whose
failures are logged and omitted, so it is not modelled. -/
def getAnalysisStatus (task_id : String) (st : ApiState) : Except HttpErr JobRecord :=
  match st.jobs.lookup task_id with
  | none => .error ⟨404, "Analysis not found"⟩
  | some r => .ok r

/-- The `DELETE /analysis/{task_id}` endpoint (main.py delete_analysis).
The not-found branch raises `HTTPException(404, "Analysis not found")`,
but this endpoint has no `except HTTPException: raise` clause, so its own
generic handler catches it and re-raises `HTTPException(500, str(e))`,
where the string form of the caught exception is
`"404: Analysis not found"`. -/
def deleteAnalysis (task_id : String) (st : ApiState) : Except HttpErr String × ApiState :=
  match st.jobs.lookup task_id with
  | none => (.error ⟨500, "404: Analysis not found"⟩, st)
  | some _ =>
    (.ok ("Analysis " ++ task_id ++ " deleted successfully"),
     { st with jobs := alistDelete task_id st.jobs })

/-- The rank of a status along the chain claimed by the spec:
Queued before Processing before the terminal pair. -/
def statusRank (s : String) : Nat :=
  if s = "queued" then 0 else if s = "processing" then 1 else 2

/-- The successive snapshots a single job row can go through, read off the
code paths: the queued endpoint creates the row in `queued` and the
at-most-once Celery dispatch then applies exactly one worker write to it;
the fast endpoint creates the row in `processing` and applies exactly one
inline write to it. `update_analysis_result` has no caller, so it
contributes no snapshots. -/
inductive JobTrace : List JobRecord → Prop where
  | submitted (tid fn q : String) : JobTrace [newQueuedRecord tid fn q]
  | workerCompleted (tid fn q : String) (payload : List (String × PyVal)) (now pt : Nat) :
      JobTrace [newQueuedRecord tid fn q,
                workerSuccessWrite payload now pt (newQueuedRecord tid fn q)]
  | workerFailed (tid fn q msg : String) (now : Nat) :
      JobTrace [newQueuedRecord tid fn q, workerFailWrite msg now (newQueuedRecord tid fn q)]
  | fastStarted (tid fn q : String) : JobTrace [newProcessingRecord tid fn q]
  | fastCompleted (tid fn q : String) (payload : List (String × PyVal)) (now pt : Nat) :
      JobTrace [newProcessingRecord tid fn q,
                fastSuccessWrite payload now pt (newProcessingRecord tid fn q)]
  | fastFailed (tid fn q msg : String) (now : Nat) :
      JobTrace [newProcessingRecord tid fn q,
                fastFailWrite msg now (newProcessingRecord tid fn q)]

/-- A job row is reachable when it appears in some trace. -/
inductive ReachableRecord : JobRecord → Prop where
  | ofTrace (ss : List JobRecord) (r : JobRecord) :
      JobTrace ss → r ∈ ss → ReachableRecord r

/-- The result/error column invariant claimed by the spec: the result
payload is set exactly on Completed rows and the error message exactly on
Failed rows. -/
def resultErrorInvariant (r : JobRecord) : Prop :=
  (r.result.isSome = true ↔ r.status = "completed") ∧
  (r.error_message.isSome = true ↔ r.status = "failed")

/-- Soundness of the external `json.loads` on object literals: decoding a
string that starts with an opening brace yields a dict when it succeeds.
This is a property of the real JSON library, taken as a hypothesis where
the control flow depends on it. -/
def objSound (jsonLoads : String → Option PyVal) : Prop :=
  ∀ s v, jsonLoads s = some v → s.data.head? = some '{' → ∃ kvs, v = PyVal.dict kvs

/-- Follows the spec words for comparison (claim C6): the filename with
the `.pdf` suffix removed, underscores replaced by spaces, title-cased. -/
def specSuffixCompanyFallback (filename : String) : String :=
  let stem :=
    if pyEndsWith filename (".pdf") then String.mk (filename.data.take (filename.data.length - 4))
    else filename
  pyTitle (pyReplace stem ("_") (" "))

/-- Failure of the company-name stage as the code defines it: the call
raised, or the stripped reply is empty or at least 100 characters long. -/
def companyStageFailed : Option String → Prop
  | none => True
  | some t => pyStrip t = "" ∨ 100 ≤ (pyStrip t).length

/-- Failure of an object-shaped stage (metrics): the call raised, the
brace pattern found no match, or `json.loads` raised on the match. -/
def objStageFailed (jsonLoads : String → Option PyVal) : Option String → Prop
  | none => True
  | some t =>
    match searchNonNested t.data with
    | none => True
    | some m => jsonLoads (String.mk m) = none

/-- Failure of an array-shaped stage (recommendations, risks): the call
raised, the bracket pattern found no match, or `json.loads` raised. -/
def arrayStageFailed (jsonLoads : String → Option PyVal) : Option String → Prop
  | none => True
  | some t =>
    match searchSpan '[' ']' t.data with
    | none => True
    | some m => jsonLoads (String.mk m) = none

/-- The only conditions under which `_get_market_insights` substitutes its
fallback: the call raised, or a bracket span was found but `json.loads`
raised on it. A reply with no bracket span is not a failure for this
stage: the code parses it by line splitting instead. -/
def insightsStageFailed (jsonLoads : String → Option PyVal) : Option String → Prop
  | none => True
  | some t =>
    match searchSpan '[' ']' t.data with
    | none => False
    | some m => jsonLoads (String.mk m) = none

/-- The line-split parse of a bracket-free insights reply: the first five
stripped non-empty lines, as strings. -/
def insightsLineSplit (t : String) : PyVal :=
  .list ((((splitLines t.data).map (fun l => pyStrip (String.mk l))).filter
    (fun l => l ≠ "")).take 5 |>.map PyVal.str)

/-! ## Helper lemmas -/

/-- A failed company-name stage returns the filename fallback. -/
theorem extractCompanyName_of_failed (resp : Option String) (filename : String)
    (h : companyStageFailed resp) :
    extractCompanyName resp filename = companyFallback filename := by
  cases resp with
  | none => rfl
  | some t =>
    simp only [companyStageFailed] at h
    simp only [extractCompanyName]
    rcases h with h | h
    · simp [h]
    · simp [Nat.not_lt_of_le h]

/-- A failed metrics stage returns the empty dict. -/
theorem extractFinancialMetrics_of_failed (jsonLoads : String → Option PyVal)
    (resp : Option String) (h : objStageFailed jsonLoads resp) :
    extractFinancialMetrics jsonLoads resp = .dict [] := by
  cases resp with
  | none => rfl
  | some t =>
    simp only [objStageFailed] at h
    simp only [extractFinancialMetrics]
    cases hm : searchNonNested t.data with
    | none => rfl
    | some m =>
      rw [hm] at h
      simp only [h]

/-- A failed recommendations stage returns the monitor fallback. -/
theorem generateInvestmentRecommendations_of_failed (jsonLoads : String → Option PyVal)
    (resp : Option String) (h : arrayStageFailed jsonLoads resp) :
    generateInvestmentRecommendations jsonLoads resp = recsFallback := by
  cases resp with
  | none => rfl
  | some t =>
    simp only [arrayStageFailed] at h
    simp only [generateInvestmentRecommendations]
    cases hm : searchSpan '[' ']' t.data with
    | none => rfl
    | some m =>
      rw [hm] at h
      simp only [h]

/-- A failed risk stage returns the market-risk fallback. -/
theorem assessRisks_of_failed (jsonLoads : String → Option PyVal)
    (resp : Option String) (h : arrayStageFailed jsonLoads resp) :
    assessRisks jsonLoads resp = risksFallback := by
  cases resp with
  | none => rfl
  | some t =>
    simp only [arrayStageFailed] at h
    simp only [assessRisks]
    cases hm : searchSpan '[' ']' t.data with
    | none => rfl
    | some m =>
      rw [hm] at h
      simp only [h]

/-- A raised call, or a decode error on a found bracket span, makes the
insights stage return its fallback. -/
theorem getMarketInsights_of_failed (jsonLoads : String → Option PyVal)
    (resp : Option String) (h : insightsStageFailed jsonLoads resp) :
    getMarketInsights jsonLoads resp = insightsFallback := by
  cases resp with
  | none => rfl
  | some t =>
    simp only [insightsStageFailed] at h
    simp only [getMarketInsights]
    cases hm : searchSpan '[' ']' t.data with
    | none =>
      rw [hm] at h
      exact h.elim
    | some m =>
      rw [hm] at h
      simp only [h]

/-- A reply with no bracket span is parsed by line splitting, not replaced
by the fallback. -/
theorem getMarketInsights_linesplit (jsonLoads : String → Option PyVal) (t : String)
    (h : searchSpan '[' ']' t.data = none) :
    getMarketInsights jsonLoads (some t) = insightsLineSplit t := by
  simp only [getMarketInsights, h, insightsLineSplit]

/-- A match of the metrics pattern starts with an opening brace. -/
theorem searchNonNested_head (l m : List Char) (h : searchNonNested l = some m) :
    ∃ t, m = '{' :: t := by
  induction l with
  | nil => simp [searchNonNested] at h
  | cons d rest ih =>
    simp only [searchNonNested] at h
    by_cases hd : d = '{'
    · rw [if_pos hd] at h
      split at h
      · exact ⟨_, (Option.some_injective _ h).symm⟩
      · exact ih h
    · rw [if_neg hd] at h
      exact ih h

/-- Under object-soundness of the decoder, the metrics stage always
produces a dict (the empty fallback or a decoded object literal). -/
theorem extractFinancialMetrics_isDict (jsonLoads : String → Option PyVal)
    (resp : Option String) (h : objSound jsonLoads) :
    ∃ kvs, extractFinancialMetrics jsonLoads resp = .dict kvs := by
  cases resp with
  | none => exact ⟨[], rfl⟩
  | some t =>
    simp only [extractFinancialMetrics]
    cases hm : searchNonNested t.data with
    | none => exact ⟨[], rfl⟩
    | some m =>
      cases hj : jsonLoads (String.mk m) with
      | none => exact ⟨[], by simp [hj]⟩
      | some v =>
        obtain ⟨tl, rfl⟩ := searchNonNested_head _ _ hm
        obtain ⟨kvs, rfl⟩ := h _ _ hj rfl
        exact ⟨kvs, by simp [hj]⟩

/-- The summary template fill never raises on a dict of metrics. -/
theorem generateSummary_dict (kvs : List (String × PyVal)) (company query : String) :
    ∃ s, generateSummary (.dict kvs) company query = .ok s :=
  ⟨_, rfl⟩

/-! ## Claim C1: status transition chain -/

/-- C1 counterexample: the claim says every status write moves one step
along Queued then Processing then a terminal state and that no step skips
Processing, but on the ordinary queued path the worker success write moves
the row from `queued` directly to `completed`: the database status is
never `processing` for a queued job. -/
theorem c1_counterexample :
    JobTrace [newQueuedRecord ("t1") ("report.pdf") ("q"),
              workerSuccessWrite [] 1 1 (newQueuedRecord ("t1") ("report.pdf") ("q"))] ∧
    (newQueuedRecord ("t1") ("report.pdf") ("q")).status = "queued" ∧
    (workerSuccessWrite [] 1 1 (newQueuedRecord ("t1") ("report.pdf") ("q"))).status
      = "completed" :=
  ⟨JobTrace.workerCompleted ("t1") ("report.pdf") ("q") [] 1 1, rfl, rfl⟩

/-- C1 amended: along every reachable per-job sequence of snapshots the
status rank (Queued 0, Processing 1, terminal 2) strictly increases at
each write and no write follows a terminal status; the worker path however
skips Processing entirely (the row goes Queued to Completed or Queued to
Failed in one write; Processing appears in the store only for fast-path
rows, which are created already in that state). -/
theorem c1_amended (ss : List JobRecord) (h : JobTrace ss) :
    List.Chain' (fun a b => statusRank a.status < statusRank b.status) ss ∧
    ∀ r ∈ ss.dropLast, r.status ≠ "completed" ∧ r.status ≠ "failed" := by
  cases h <;>
    refine ⟨?_, ?_⟩ <;>
      simp [newQueuedRecord, newProcessingRecord, workerSuccessWrite, workerFailWrite,
            fastSuccessWrite, fastFailWrite, statusRank, List.chain'_cons,
            List.chain'_singleton]

/-- C1 amended witness at a concrete worker-failure trace. -/
theorem c1_amended_witness :
    List.Chain' (fun a b => statusRank a.status < statusRank b.status)
      [newQueuedRecord ("t") ("f.pdf") ("q"),
       workerFailWrite ("boom") 3 (newQueuedRecord ("t") ("f.pdf") ("q"))] ∧
    ∀ r ∈ ([newQueuedRecord ("t") ("f.pdf") ("q"),
            workerFailWrite ("boom") 3 (newQueuedRecord ("t") ("f.pdf") ("q"))] :
           List JobRecord).dropLast,
      r.status ≠ "completed" ∧ r.status ≠ "failed" :=
  c1_amended _ (JobTrace.workerFailed ("t") ("f.pdf") ("q") ("boom") 3)

/-! ## Claim C2: result/error iff invariant -/

/-- C2 counterexample: the claim says every mutating operation, including
`update_analysis_result`, preserves the invariant; but that method
overwrites the result column whatever its status argument is and never
writes the error column, so calling it on a reachable invariant-satisfying
queued row with a non-null result and status `failed` produces a Failed
row with a non-null result and a null error. -/
theorem c2_counterexample :
    ReachableRecord (newQueuedRecord ("t") ("f.pdf") ("q")) ∧
    resultErrorInvariant (newQueuedRecord ("t") ("f.pdf") ("q")) ∧
    ¬ resultErrorInvariant
        (update_analysis_result (some [("company_name", PyVal.str ("Acme"))]) ("failed") none 5
          (newQueuedRecord ("t") ("f.pdf") ("q"))) := by
  refine ⟨ReachableRecord.ofTrace _ _ (JobTrace.submitted ("t") ("f.pdf") ("q")) (by simp),
          ?_, ?_⟩
  · simp [resultErrorInvariant, newQueuedRecord]
  · simp [resultErrorInvariant, update_analysis_result, newQueuedRecord, pyTruthy]

/-- C2 amended: every reachable job row satisfies the invariant (result
set exactly on Completed, error set exactly on Failed), and the four
worker/fast-path writes preserve it from the rows they are actually
applied to (rows with null result and null error); the unused
`update_analysis_result` preserves it only when called with status
`completed`, a present result, and a row whose error column is null. -/
theorem c2_amended :
    (∀ r, ReachableRecord r → resultErrorInvariant r) ∧
    (∀ (p : List (String × PyVal)) (now pt : Nat) (r : JobRecord),
        r.result = none → r.error_message = none →
        resultErrorInvariant (workerSuccessWrite p now pt r) ∧
        resultErrorInvariant (fastSuccessWrite p now pt r)) ∧
    (∀ (msg : String) (now : Nat) (r : JobRecord),
        r.result = none → r.error_message = none →
        resultErrorInvariant (workerFailWrite msg now r) ∧
        resultErrorInvariant (fastFailWrite msg now r)) ∧
    (∀ (p : List (String × PyVal)) (pt : Option Nat) (now : Nat) (r : JobRecord),
        r.error_message = none →
        resultErrorInvariant (update_analysis_result (some p) ("completed") pt now r)) := by
  refine ⟨?_, ?_, ?_, ?_⟩
  · rintro r ⟨ss, r, ht, hm⟩
    cases ht <;>
      simp only [List.mem_cons, List.mem_singleton, List.not_mem_nil, or_false] at hm <;>
      rcases hm with rfl | rfl <;>
        simp [resultErrorInvariant, newQueuedRecord, newProcessingRecord, workerSuccessWrite,
              workerFailWrite, fastSuccessWrite, fastFailWrite]
  · intro p now pt r h1 h2
    constructor <;> simp [resultErrorInvariant, workerSuccessWrite, fastSuccessWrite, h1, h2]
  · intro msg now r h1 h2
    constructor <;> simp [resultErrorInvariant, workerFailWrite, fastFailWrite, h1, h2]
  · intro p pt now r he
    simp only [update_analysis_result]
    split
    · simp [resultErrorInvariant, he]
    · split
      · split
        · simp [resultErrorInvariant, he]
        · simp [resultErrorInvariant, he]
      · simp [resultErrorInvariant, he]

/-- C2 amended witness at a concrete worker success write over a freshly
queued row. -/
theorem c2_amended_witness :
    resultErrorInvariant
      (workerSuccessWrite [("company_name", PyVal.str ("Acme"))] 2 1
        (newQueuedRecord ("t") ("f.pdf") ("q"))) :=
  (c2_amended.2.1 [("company_name", PyVal.str ("Acme"))] 2 1
    (newQueuedRecord ("t") ("f.pdf") ("q")) rfl rfl).1

/-! ## Claim C6: company-name fallback -/

/-- C6 counterexample: the claim describes the fallback as removing the
`.pdf` suffix, but `str.replace` removes every occurrence: on filename
`a.pdf_b.pdf` with a raised model call the code yields `A B`, not the
suffix-stripped `A.Pdf B`. -/
theorem c6_counterexample :
    extractCompanyName none ("a.pdf_b.pdf") ≠ specSuffixCompanyFallback ("a.pdf_b.pdf") := by
  decide

/-- C6 amended: when the company-name model call raises, returns empty
text, or fails the length sanity check, the extracted name is the filename
with every occurrence of `.pdf` removed (not only the suffix), underscores
replaced by spaces, and title-cased; in particular for `report.pdf` it is
exactly `Report`. -/
theorem c6_amended :
    (∀ (resp : Option String) (filename : String), companyStageFailed resp →
        extractCompanyName resp filename = companyFallback filename) ∧
    companyFallback ("report.pdf") = "Report" := by
  refine ⟨extractCompanyName_of_failed, ?_⟩
  decide

/-- C6 amended witness: a raised call on `report.pdf` yields `Report`. -/
theorem c6_amended_witness : extractCompanyName none ("report.pdf") = "Report" :=
  (c6_amended.1 none ("report.pdf") trivial).trans c6_amended.2

/-! ## Claim C7: delete endpoint -/

/-- C7: deleting an absent job id raises `HTTPException(404)`, but the
endpoint own generic handler catches it and re-raises it as a 500, so the
caller sees 500 (with the 404 only inside the detail string) instead of
the not-found status the spec requires; the second half of the claim
holds: deleting an existing id succeeds and a subsequent status query
returns the real 404. -/
theorem c7_delete_behavior :
    (deleteAnalysis ("t2")
        ⟨[], [(("t1"), newQueuedRecord ("t1") ("report.pdf") ("q"))], []⟩).1
      = .error ⟨500, "404: Analysis not found"⟩ ∧
    (deleteAnalysis ("t1")
        ⟨[], [(("t1"), newQueuedRecord ("t1") ("report.pdf") ("q"))], []⟩).1
      = .ok ("Analysis t1 deleted successfully") ∧
    getAnalysisStatus ("t1")
        ((deleteAnalysis ("t1")
          ⟨[], [(("t1"), newQueuedRecord ("t1") ("report.pdf") ("q"))], []⟩).2)
      = .error ⟨404, "Analysis not found"⟩ :=
  ⟨rfl, rfl, rfl⟩

/-! ## Claim C8: enqueue failure handling -/

/-- C8: when the Celery dispatch raises after the row was committed, the
endpoint generic handler surfaces a 500 to the caller, but nothing marks
the row Failed: it stays in `queued`, contrary to the claim. -/
theorem c8_enqueue_failure_behavior :
    (analyzeEndpoint (some ("redis down")) ("t1") (some ("report.pdf")) [1, 2] ("q")
        ⟨[], [], []⟩).1 = .error ⟨500, "redis down"⟩ ∧
    ((analyzeEndpoint (some ("redis down")) ("t1") (some ("report.pdf")) [1, 2] ("q")
        ⟨[], [], []⟩).2.jobs.lookup ("t1")).map JobRecord.status = some "queued" :=
  ⟨rfl, rfl⟩

/-! ## Claim C10: upload validation wrapped into a 500 -/

/-- C10: a missing filename or one not ending in `.pdf` (case-insensitive)
is rejected before any row or file is created, but the raised
`HTTPException(400)` is caught by the endpoint own generic handler and
re-raised as a 500 whose detail is the string form of the 400. -/
theorem c10_validation_wrapped_500 (enqueue : Option String) (tid : String)
    (filename : Option String) (content : List Nat) (query : String) (st : ApiState)
    (h : pdfOk filename = false) :
    (analyzeEndpoint enqueue tid filename content query st).1
      = .error ⟨500, "400: Only PDF files are supported"⟩ ∧
    (analyzeEndpoint enqueue tid filename content query st).2 = st := by
  simp [analyzeEndpoint, h]

/-- C10 witness at a concrete non-PDF upload. -/
theorem c10_witness :
    (analyzeEndpoint none ("t1") (some ("report.txt")) [1] ("q") ⟨[], [], []⟩).1
      = .error ⟨500, "400: Only PDF files are supported"⟩ ∧
    (analyzeEndpoint none ("t1") (some ("report.txt")) [1] ("q") ⟨[], [], []⟩).2
      = ⟨[], [], []⟩ :=
  c10_validation_wrapped_500 none ("t1") (some ("report.txt")) [1] ("q") ⟨[], [], []⟩
    (by decide)

/-! ## Claim C9: worker on a deleted row -/

/-- C9: when no row with the task id exists at write time, the worker
writes nothing to the store (both on the success path, discarding the
computed payload, and on the failure path, discarding the error message),
and the success path still returns a `completed` task result. -/
theorem c9_worker_missing_record (pdfExtract : List Nat → Except String String)
    (oracle : ModelOracle) (jsonLoads : String → Option PyVal)
    (tid path query fn : String) (now pt : Nat) (st : ApiState)
    (habsent : st.jobs.lookup tid = none) :
    (workerTask pdfExtract oracle jsonLoads tid path query fn now pt st).2.jobs = st.jobs ∧
    (∀ content payload, st.docs.lookup path = some content →
        analyzeDocument pdfExtract oracle jsonLoads content fn query = .ok payload →
        (workerTask pdfExtract oracle jsonLoads tid path query fn now pt st).1
          = .ok ⟨tid, "completed", payload, pt⟩) ∧
    (st.docs.lookup path = none →
        (workerTask pdfExtract oracle jsonLoads tid path query fn now pt st).1
          = .error ("Analysis failed: File not found: " ++ path)) := by
  refine ⟨?_, ?_, ?_⟩
  · simp only [workerTask]
    cases hd : st.docs.lookup path with
    | none => simp [habsent]
    | some content =>
      cases ha : analyzeDocument pdfExtract oracle jsonLoads content fn query <;>
        simp [habsent, ha]
  · intro content payload hd hok
    simp [workerTask, hd, hok, habsent]
  · intro hd
    simp [workerTask, hd, habsent]

/-- C9 witness: a concrete worker run whose row is absent and whose upload
vanished leaves the (empty) store untouched and re-raises. -/
theorem c9_witness :
    (workerTask (fun _ => .ok ("")) ⟨none, none, none, none, none, none⟩ (fun _ => none)
        ("t1") ("data/doc_t1.pdf") ("q") ("report.pdf") 3 1 ⟨[], [], []⟩).2.jobs = [] ∧
    (workerTask (fun _ => .ok ("")) ⟨none, none, none, none, none, none⟩ (fun _ => none)
        ("t1") ("data/doc_t1.pdf") ("q") ("report.pdf") 3 1 ⟨[], [], []⟩).1
      = .error ("Analysis failed: File not found: data/doc_t1.pdf") :=
  ⟨(c9_worker_missing_record (fun _ => .ok ("")) ⟨none, none, none, none, none, none⟩
      (fun _ => none) ("t1") ("data/doc_t1.pdf") ("q") ("report.pdf") 3 1 ⟨[], [], []⟩ rfl).1,
   (c9_worker_missing_record (fun _ => .ok ("")) ⟨none, none, none, none, none, none⟩
      (fun _ => none) ("t1") ("data/doc_t1.pdf") ("q") ("report.pdf") 3 1 ⟨[], [], []⟩
      rfl).2.2 rfl⟩

/-! ## Claim C5: selected substrings of the structured parsers -/

/-- Splitting takeWhile/dropWhile at the first character violating the
predicate. -/
theorem dropWhile_append_sat {p : Char → Bool} : ∀ (mid : List Char) (x : Char)
    (post : List Char), (∀ c ∈ mid, p c = true) → p x = false →
    (mid ++ x :: post).dropWhile p = x :: post ∧ (mid ++ x :: post).takeWhile p = mid := by
  intro mid
  induction mid with
  | nil =>
    intro x post _ hx
    simp [List.dropWhile, List.takeWhile, hx]
  | cons d rest ih =>
    intro x post hall hx
    have hd : p d = true := hall d (by simp)
    obtain ⟨h1, h2⟩ := ih x post (fun c hc => hall c (by simp [hc])) hx
    simp [List.dropWhile, List.takeWhile, hd, h1, h2]

/-- The metrics matcher skips a prefix containing no opening brace. -/
theorem searchNonNested_append : ∀ (pre l : List Char),
    (∀ c ∈ pre, c ≠ '{') → searchNonNested (pre ++ l) = searchNonNested l := by
  intro pre
  induction pre with
  | nil => intro l _; rfl
  | cons d rest ih =>
    intro l h
    have hd : d ≠ '{' := h d (by simp)
    simp only [List.cons_append, searchNonNested, if_neg hd]
    exact ih l (fun c hc => h c (by simp [hc]))

/-- The metrics matcher at an opening brace followed by a brace-free run
and a closing brace selects exactly that pair. -/
theorem searchNonNested_at_open (mid post : List Char)
    (hmid : ∀ c ∈ mid, c ≠ '{' ∧ c ≠ '}') :
    searchNonNested ('{' :: (mid ++ '}' :: post)) = some ('{' :: mid ++ ['}']) := by
  have hb : ∀ c ∈ mid, braceFree c = true := by
    intro c hc
    obtain ⟨h1, h2⟩ := hmid c hc
    simp [braceFree, h1, h2]
  have hx : braceFree '}' = false := by decide
  obtain ⟨hdrop, htake⟩ := dropWhile_append_sat mid '}' post hb hx
  simp [searchNonNested, hdrop, htake]

/-- takeToLast at the single occurrence of the terminator. -/
theorem takeToLast_eq : ∀ (mid post : List Char) (c : Char),
    c ∉ mid → c ∉ post → takeToLast c (mid ++ c :: post) = mid ++ [c] := by
  intro mid
  induction mid with
  | nil =>
    intro post c _ hpost
    simp [takeToLast, hpost]
  | cons d rest ih =>
    intro post c hmid hpost
    have hin : c ∈ rest ++ c :: post := by simp
    have hrec := ih post c (fun h => hmid (List.mem_cons_of_mem _ h)) hpost
    simp [takeToLast, hin, hrec]

/-- The greedy span matcher skips a prefix containing no opener. -/
theorem searchSpan_append : ∀ (pre l : List Char) (op cl : Char),
    (∀ c ∈ pre, c ≠ op) → searchSpan op cl (pre ++ l) = searchSpan op cl l := by
  intro pre
  induction pre with
  | nil => intro l op cl _; rfl
  | cons d rest ih =>
    intro l op cl h
    have hd : d ≠ op := h d (by simp)
    simp only [List.cons_append, searchSpan]
    rw [if_neg (fun hh => hd hh.1)]
    exact ih l op cl (fun c hc => h c (by simp [hc]))

/-- The greedy span matcher at an opener whose closer occurs once. -/
theorem searchSpan_at_open (op cl : Char) (mid post : List Char)
    (hmid : cl ∉ mid) (hpost : cl ∉ post) :
    searchSpan op cl (op :: (mid ++ cl :: post)) = some (op :: mid ++ [cl]) := by
  have hin : cl ∈ mid ++ cl :: post := by simp
  have ht := takeToLast_eq mid post cl hmid hpost
  simp [searchSpan, hin, ht]

/-- findClose walks a nesting-free body to the matching closer. -/
theorem findClose_flat (op cl : Char) : ∀ (mid post : List Char),
    (∀ c ∈ mid, c ≠ op ∧ c ≠ cl) →
    findClose op cl (mid ++ cl :: post) 1 = some (mid ++ [cl]) := by
  intro mid
  induction mid with
  | nil =>
    intro post _
    simp [findClose]
  | cons d rest ih =>
    intro post h
    obtain ⟨h1, h2⟩ := h d (by simp)
    have hrec := ih post (fun c hc => h c (by simp [hc]))
    simp [findClose, h1, h2, hrec]

/-- The spec-side balanced search skips a prefix with no opener of either
kind. -/
theorem firstBalanced_append : ∀ (pre l : List Char),
    (∀ c ∈ pre, c ≠ '{' ∧ c ≠ '[') → firstBalanced (pre ++ l) = firstBalanced l := by
  intro pre
  induction pre with
  | nil => intro l _; rfl
  | cons d rest ih =>
    intro l h
    obtain ⟨h1, h2⟩ := h d (by simp)
    simp only [List.cons_append, firstBalanced, if_neg h1, if_neg h2]
    exact ih l (fun c hc => h c (by simp [hc]))

/-- The spec-side balanced search at a non-nested object literal. -/
theorem firstBalanced_at_brace (mid post : List Char)
    (hmid : ∀ c ∈ mid, c ≠ '{' ∧ c ≠ '}') :
    firstBalanced ('{' :: (mid ++ '}' :: post)) = some ('{' :: mid ++ ['}']) := by
  have hf := findClose_flat '{' '}' mid post hmid
  simp [firstBalanced, hf]

/-- The spec-side balanced search at a non-nested array literal. -/
theorem firstBalanced_at_bracket (mid post : List Char)
    (hmid : ∀ c ∈ mid, c ≠ '[' ∧ c ≠ ']') :
    firstBalanced ('[' :: (mid ++ ']' :: post)) = some ('[' :: mid ++ [']']) := by
  have hf := findClose_flat '[' ']' mid post hmid
  simp [firstBalanced, hf]

/-- C5 counterexample: the parsers do not select the first balanced
substring. On a nested object the brace pattern matches the innermost
brace pair while the first balanced substring is the outer object; on two
arrays the greedy dot-star consumes from the first opener to the last
closer while the first balanced substring is the first array alone. -/
theorem c5_counterexample :
    searchNonNested (("x\x7ba\x7bb1\x7d\x7d").data)
        ≠ firstBalanced (("x\x7ba\x7bb1\x7d\x7d").data) ∧
    searchSpan '[' ']' (("[1] [2]").data) ≠ firstBalanced (("[1] [2]").data) := by
  constructor <;> decide

/-- C5 amended: each structured parser selects by its own bracket kind and
does not perform balanced matching; on a response whose first bracketed
content is a single non-nested literal (no opener of either kind before
it, no bracket of its own kind inside, and, for the greedy parsers, no
closer of its kind after it) the selection does agree with the first
balanced substring. -/
theorem c5_amended :
    (∀ pre mid post : List Char,
        (∀ c ∈ pre, c ≠ '{' ∧ c ≠ '[') → (∀ c ∈ mid, c ≠ '{' ∧ c ≠ '}') →
        searchNonNested (pre ++ '{' :: (mid ++ '}' :: post)) = some ('{' :: mid ++ ['}']) ∧
        firstBalanced (pre ++ '{' :: (mid ++ '}' :: post)) = some ('{' :: mid ++ ['}'])) ∧
    (∀ pre mid post : List Char,
        (∀ c ∈ pre, c ≠ '{' ∧ c ≠ '[') → (∀ c ∈ mid, c ≠ '[' ∧ c ≠ ']') → ']' ∉ post →
        searchSpan '[' ']' (pre ++ '[' :: (mid ++ ']' :: post)) = some ('[' :: mid ++ [']']) ∧
        firstBalanced (pre ++ '[' :: (mid ++ ']' :: post)) = some ('[' :: mid ++ [']'])) ∧
    (∀ pre mid post : List Char,
        (∀ c ∈ pre, c ≠ '{' ∧ c ≠ '[') → (∀ c ∈ mid, c ≠ '{' ∧ c ≠ '}') → '}' ∉ post →
        searchSpan '{' '}' (pre ++ '{' :: (mid ++ '}' :: post)) = some ('{' :: mid ++ ['}']) ∧
        firstBalanced (pre ++ '{' :: (mid ++ '}' :: post)) = some ('{' :: mid ++ ['}'])) := by
  refine ⟨?_, ?_, ?_⟩
  · intro pre mid post hpre hmid
    constructor
    · rw [searchNonNested_append pre _ (fun c hc => (hpre c hc).1)]
      exact searchNonNested_at_open mid post hmid
    · rw [firstBalanced_append pre _ hpre]
      exact firstBalanced_at_brace mid post hmid
  · intro pre mid post hpre hmid hpost
    constructor
    · rw [searchSpan_append pre _ '[' ']' (fun c hc => (hpre c hc).2)]
      exact searchSpan_at_open '[' ']' mid post (fun h => (hmid _ h).2 rfl) hpost
    · rw [firstBalanced_append pre _ hpre]
      exact firstBalanced_at_bracket mid post hmid
  · intro pre mid post hpre hmid hpost
    constructor
    · rw [searchSpan_append pre _ '{' '}' (fun c hc => (hpre c hc).1)]
      exact searchSpan_at_open '{' '}' mid post (fun h => (hmid _ h).2 rfl) hpost
    · rw [firstBalanced_append pre _ hpre]
      exact firstBalanced_at_brace mid post hmid

/-- C5 amended witness on a concrete single-object response. -/
theorem c5_amended_witness :
    searchNonNested (("note: \x7ba: 1\x7d ok").data)
        = some (("\x7ba: 1\x7d").data) ∧
    firstBalanced (("note: \x7ba: 1\x7d ok").data) = some (("\x7ba: 1\x7d").data) :=
  (c5_amended.1 (("note: ").data) (("a: 1").data) ((" ok").data)
    (by decide) (by decide))

/-! ## Claim C3: total analysis result with per-stage fallbacks -/

/-- C3 counterexample: the claim counts unparsable output as a failure to
be replaced by the stage deterministic fallback, but a market-insights
reply with no bracket span is parsed into its first five stripped
non-empty lines instead: inside a full `analyze_document` run the stored
insights field is the line-split list, not the fallback. -/
theorem c3_counterexample :
    getMarketInsights (fun _ => none) (some ("just prose")) = .list [.str ("just prose")] ∧
    PyVal.list [.str ("just prose")] ≠ insightsFallback ∧
    (∃ payload,
      analyzeDocument (fun _ => .ok ("")) ⟨none, none, none, none, some ("just prose"), none⟩
          (fun _ => none) [] ("report.pdf") ("q") = .ok payload ∧
      payload.lookup ("market_insights") = some (.list [.str ("just prose")])) := by
  refine ⟨rfl, ?_, ⟨_, rfl, rfl⟩⟩
  intro h
  unfold insightsFallback at h
  injection h with hlist
  injection hlist with hhead htail
  injection hhead with hstr
  exact absurd hstr (by decide)

/-- C3 amended: for every transcript, filename, query and combination of
per-stage outcomes, `analyze_document` returns (never raises past a
stage) a record with exactly the seven fields; company, metrics,
recommendations and risks substitute their deterministic fallback on any
failure (raised call, no regex match, or decode error), and the query
answer on a raised call; the market-insights stage substitutes its
fallback only when its call raises or a found bracket span fails to
decode, while a reply with no bracket span is parsed into its first five
stripped non-empty lines. Object-soundness of the JSON decoder (a
property of the real `json.loads`) rules out the only cross-stage leak, a
non-dict metrics value reaching the summary template. -/
theorem c3_amended (pdfExtract : List Nat → Except String String)
    (oracle : ModelOracle) (jsonLoads : String → Option PyVal) (content : List Nat)
    (filename query text : String)
    (hpdf : pdfExtract content = .ok text) (hjson : objSound jsonLoads) :
    ∃ company metrics recs risks insights summary answer,
      analyzeDocument pdfExtract oracle jsonLoads content filename query =
        .ok [(("company_name"), .str company), (("financial_metrics"), metrics),
             (("investment_recommendations"), recs), (("risk_assessments"), risks),
             (("market_insights"), insights), (("summary"), .str summary),
             (("query_response"), .str answer)] ∧
      (companyStageFailed oracle.companyResp → company = companyFallback filename) ∧
      (objStageFailed jsonLoads oracle.metricsResp → metrics = .dict []) ∧
      (arrayStageFailed jsonLoads oracle.recsResp → recs = recsFallback) ∧
      (arrayStageFailed jsonLoads oracle.risksResp → risks = risksFallback) ∧
      (insightsStageFailed jsonLoads oracle.insightsResp → insights = insightsFallback) ∧
      (∀ t, oracle.insightsResp = some t → searchSpan '[' ']' t.data = none →
        insights = insightsLineSplit t) ∧
      (oracle.queryResp = none →
        answer = "Unable to provide specific analysis for query: " ++ query) := by
  obtain ⟨kvs, hm⟩ := extractFinancialMetrics_isDict jsonLoads oracle.metricsResp hjson
  have hsum : ∃ s, generateSummary (extractFinancialMetrics jsonLoads oracle.metricsResp)
      (extractCompanyName oracle.companyResp filename) query = .ok s := by
    rw [hm]
    exact generateSummary_dict kvs _ _
  obtain ⟨s, hs⟩ := hsum
  refine ⟨extractCompanyName oracle.companyResp filename,
          extractFinancialMetrics jsonLoads oracle.metricsResp,
          generateInvestmentRecommendations jsonLoads oracle.recsResp,
          assessRisks jsonLoads oracle.risksResp,
          getMarketInsights jsonLoads oracle.insightsResp,
          s, answerSpecificQuery oracle.queryResp query,
          ?_, ?_, ?_, ?_, ?_, ?_, ?_, ?_⟩
  · simp only [analyzeDocument, hpdf]
    rw [hs]
  · intro h
    exact extractCompanyName_of_failed _ _ h
  · intro h
    exact extractFinancialMetrics_of_failed _ _ h
  · intro h
    exact generateInvestmentRecommendations_of_failed _ _ h
  · intro h
    exact assessRisks_of_failed _ _ h
  · intro h
    exact getMarketInsights_of_failed _ _ h
  · intro t ht hspan
    rw [ht]
    exact getMarketInsights_linesplit _ t hspan
  · intro h
    rw [h]
    rfl

/-- C3 amended witness: every model call raising and the decoder always
raising still produce the fully-populated, maximally-degraded record. -/
theorem c3_amended_witness :
    ∃ company metrics recs risks insights summary answer,
      analyzeDocument (fun _ => .ok ("")) ⟨none, none, none, none, none, none⟩
          (fun _ => none) [] ("report.pdf") ("growth?") =
        .ok [(("company_name"), .str company), (("financial_metrics"), metrics),
             (("investment_recommendations"), recs), (("risk_assessments"), risks),
             (("market_insights"), insights), (("summary"), .str summary),
             (("query_response"), .str answer)] ∧
      (companyStageFailed (none : Option String) → company = companyFallback ("report.pdf")) ∧
      (objStageFailed (fun _ => none) (none : Option String) → metrics = .dict []) ∧
      (arrayStageFailed (fun _ => none) (none : Option String) → recs = recsFallback) ∧
      (arrayStageFailed (fun _ => none) (none : Option String) → risks = risksFallback) ∧
      (insightsStageFailed (fun _ => none) (none : Option String) →
        insights = insightsFallback) ∧
      (∀ t, (none : Option String) = some t → searchSpan '[' ']' t.data = none →
        insights = insightsLineSplit t) ∧
      ((none : Option String) = none →
        answer = "Unable to provide specific analysis for query: " ++ ("growth?")) :=
  c3_amended (fun _ => .ok ("")) ⟨none, none, none, none, none, none⟩
    (fun _ => none) [] ("report.pdf") ("growth?") ("") rfl
    (fun s v h _ => by simp at h)

/-! ## Claim C4: queued path and fast path store the same payload -/

/-- C4: with identical bytes, filename and query and a deterministic model
and decoder, the payload stored for the queued job (submit endpoint, then
the worker run on the enqueued work unit) is identical to the payload
stored by the synchronous fast path, both paths invoking the same
`analyze_document` on the same inputs; on analysis failure both leave the
result column null. -/
theorem c4_paths_agree (pdfExtract : List Nat → Except String String) (oracle : ModelOracle)
    (jsonLoads : String → Option PyVal) (content : List Nat) (fn query tidQ tidF : String)
    (now1 pt1 now2 pt2 : Nat) (st : ApiState) (hfn : pdfOk (some fn) = true) :
    (((workerTask pdfExtract oracle jsonLoads tidQ ("data/doc_" ++ tidQ ++ ".pdf")
          (pyStrip query) fn now1 pt1
          (analyzeEndpoint none tidQ (some fn) content query st).2).2.jobs.lookup
        tidQ).bind JobRecord.result)
      = (((fastEndpoint pdfExtract oracle jsonLoads tidF (some fn) content query now2 pt2
          st).2.jobs.lookup tidF).bind JobRecord.result) := by
  cases h : analyzeDocument pdfExtract oracle jsonLoads content fn (pyStrip query) with
  | error e =>
    simp [analyzeEndpoint, hfn, fastEndpoint, workerTask, h, alistInsert, alistUpdate,
          alistDelete, List.lookup, newQueuedRecord, newProcessingRecord, workerFailWrite,
          fastFailWrite]
  | ok payload =>
    simp [analyzeEndpoint, hfn, fastEndpoint, workerTask, h, alistInsert, alistUpdate,
          alistDelete, List.lookup, newQueuedRecord, newProcessingRecord, workerSuccessWrite,
          fastSuccessWrite]

/-- C4 witness: a concrete upload through both paths, with all model calls
raising, stores the same degraded payload. -/
theorem c4_witness :
    (((workerTask (fun _ => .ok ("")) ⟨none, none, none, none, none, none⟩ (fun _ => none)
          ("tq") ("data/doc_" ++ ("tq") ++ ".pdf") (pyStrip (" q ")) ("report.pdf") 1 2
          (analyzeEndpoint none ("tq") (some ("report.pdf")) [9] (" q ")
            ⟨[], [], []⟩).2).2.jobs.lookup ("tq")).bind JobRecord.result)
      = (((fastEndpoint (fun _ => .ok ("")) ⟨none, none, none, none, none, none⟩
          (fun _ => none) ("tf") (some ("report.pdf")) [9] (" q ") 3 4
          ⟨[], [], []⟩).2.jobs.lookup ("tf")).bind JobRecord.result) :=
  c4_paths_agree (fun _ => .ok ("")) ⟨none, none, none, none, none, none⟩ (fun _ => none)
    [9] ("report.pdf") (" q ") ("tq") ("tf") 1 2 3 4 ⟨[], [], []⟩ (by decide)

end FinDoc
